import Mathlib

/-!
Verification of the wolfEngine message-digest adapter (`src/digest.c`).

The file shallowly embeds the adapter code: the generic dispatch path
(`we_Digest` sessions carrying a `wc_HashType` tag, with `we_digest_update`,
`we_digest_final`, `we_digest_cleanup` and the per-algorithm initializers),
the fixed-function SHA-256 path built under `WE_SHA256_DIRECT`, and the
EVP method-descriptor registration routines (`we_init_*_meth`).

The underlying wolfSSL hash primitives (`wc_HashInit`, `wc_HashUpdate`,
`wc_HashFinal`, `wc_HashFree`, and the dedicated `wc_Sha256*` entry points)
are an external trusted library.  They are modelled abstractly: an engine
handle accumulates the bytes fed so far, finalize applies an uninterpreted
digest function to the accumulated bytes, and every primitive call returns
an integer status drawn from an arbitrary `Engine` behaviour (0 = success,
as in wolfSSL).  Adapter functions additionally report the exact list of
engine calls they perform, so that dispatch claims can be stated.
-/

namespace WolfEngineDigest

/-- The `enum wc_HashType` members used by `digest.c`
(`WC_HASH_TYPE_SHA256`, ..., `WC_HASH_TYPE_SHA3_512`). -/
inductive HashType where
  | sha256
  | sha384
  | sha512
  | sha3_224
  | sha3_256
  | sha3_384
  | sha3_512
deriving DecidableEq, Repr

/-- wolfSSL digest-size constant `WC_SHA256_DIGEST_SIZE` (bytes). -/
def WC_SHA256_DIGEST_SIZE : Nat := 32

/-- wolfSSL digest-size constant `WC_SHA384_DIGEST_SIZE` (bytes). -/
def WC_SHA384_DIGEST_SIZE : Nat := 48

/-- wolfSSL digest-size constant `WC_SHA512_DIGEST_SIZE` (bytes). -/
def WC_SHA512_DIGEST_SIZE : Nat := 64

/-- wolfSSL digest-size constant `WC_SHA3_224_DIGEST_SIZE` (bytes). -/
def WC_SHA3_224_DIGEST_SIZE : Nat := 28

/-- wolfSSL digest-size constant `WC_SHA3_256_DIGEST_SIZE` (bytes). -/
def WC_SHA3_256_DIGEST_SIZE : Nat := 32

/-- wolfSSL digest-size constant `WC_SHA3_384_DIGEST_SIZE` (bytes). -/
def WC_SHA3_384_DIGEST_SIZE : Nat := 48

/-- wolfSSL digest-size constant `WC_SHA3_512_DIGEST_SIZE` (bytes). -/
def WC_SHA3_512_DIGEST_SIZE : Nat := 64

/-- wolfSSL `wc_HashGetDigestSize`: the number of bytes a hash of the given
type writes on finalize. -/
def wc_HashGetDigestSize : HashType → Nat
  | .sha256 => WC_SHA256_DIGEST_SIZE
  | .sha384 => WC_SHA384_DIGEST_SIZE
  | .sha512 => WC_SHA512_DIGEST_SIZE
  | .sha3_224 => WC_SHA3_224_DIGEST_SIZE
  | .sha3_256 => WC_SHA3_256_DIGEST_SIZE
  | .sha3_384 => WC_SHA3_384_DIGEST_SIZE
  | .sha3_512 => WC_SHA3_512_DIGEST_SIZE

/-- wolfSSL `wc_HashAlg` handle: the engine-internal partial-computation
state, modelled as the bytes fed so far (bytes as `Nat`s). -/
structure wc_HashAlg where
  acc : List Nat
deriving DecidableEq, Repr

/-- wolfSSL `wc_Sha256` handle used by the `WE_SHA256_DIRECT` build,
modelled the same way as `wc_HashAlg`. -/
structure wc_Sha256 where
  acc : List Nat
deriving DecidableEq, Repr

/-- Abstract behaviour of the trusted wolfSSL hash library: one
uninterpreted digest function per hash type, and the integer status each
primitive call returns (0 means success, as throughout wolfSSL).
Quantifying theorems over `Engine` quantifies over every status the
library can return and every digest value it can produce. -/
structure Engine where
  digestFn : HashType → List Nat → List Nat
  initStatus : HashType → Int
  updateStatus : HashType → List Nat → Int
  finalStatus : HashType → Int
  freeStatus : HashType → Int

/-- wolfSSL `wc_HashInit(hash, type)`: (re)initializes the handle to the
empty accumulation; returns the library's init status. -/
def wc_HashInit (E : Engine) (hashType : HashType) : Int × wc_HashAlg :=
  (E.initStatus hashType, ⟨[]⟩)

/-- The C cast `(word32)len` applied by the adapter to the caller's
`size_t` length before handing it to the engine: truncation to 32 bits. -/
def castWord32 (n : Nat) : Nat := n % 2 ^ 32

/-- wolfSSL `wc_HashUpdate(hash, type, data, len)`: reads `len` bytes from
the `data` buffer and appends them to the accumulated message; returns the
library's update status (which can depend only on the bytes read). -/
def wc_HashUpdate (E : Engine) (hash : wc_HashAlg) (hashType : HashType)
    (data : List Nat) (len : Nat) : Int × wc_HashAlg :=
  (E.updateStatus hashType (data.take len), ⟨hash.acc ++ data.take len⟩)

/-- wolfSSL `wc_HashFinal(hash, type, out)`: writes the digest of the
accumulated bytes; returns the library's finalize status. -/
def wc_HashFinal (E : Engine) (hash : wc_HashAlg) (hashType : HashType) :
    Int × List Nat :=
  (E.finalStatus hashType, E.digestFn hashType hash.acc)

/-- wolfSSL `wc_HashFree(hash, type)`: releases the handle's resources;
returns the library's free status. -/
def wc_HashFree (E : Engine) (_hash : wc_HashAlg) (hashType : HashType) : Int :=
  E.freeStatus hashType

/-- wolfSSL `wc_InitSha256(sha256)`: dedicated SHA-256 entry point; in
wolfSSL the generic `wc_Hash*` calls at `WC_HASH_TYPE_SHA256` dispatch to
these same primitives, so both share the engine's SHA-256 behaviour. -/
def wc_InitSha256 (E : Engine) : Int × wc_Sha256 :=
  (E.initStatus HashType.sha256, ⟨[]⟩)

/-- wolfSSL `wc_Sha256Update(sha256, data, len)`: reads `len` bytes from
the `data` buffer. -/
def wc_Sha256Update (E : Engine) (sha256 : wc_Sha256) (data : List Nat)
    (len : Nat) : Int × wc_Sha256 :=
  (E.updateStatus HashType.sha256 (data.take len), ⟨sha256.acc ++ data.take len⟩)

/-- wolfSSL `wc_Sha256Final(sha256, out)`. -/
def wc_Sha256Final (E : Engine) (sha256 : wc_Sha256) : Int × List Nat :=
  (E.finalStatus HashType.sha256, E.digestFn HashType.sha256 sha256.acc)

/-- wolfSSL `wc_Sha256Free(sha256)`: returns `void` in wolfSSL. -/
def wc_Sha256Free (_E : Engine) (_sha256 : wc_Sha256) : Unit := ()

/-- The adapter's session object `we_Digest` (digest.c lines 177-181):
a generic hash handle plus the selected hash-type tag. -/
structure we_Digest where
  hash : wc_HashAlg
  hashType : HashType
deriving DecidableEq, Repr

/-- One call made by the adapter into the wolfSSL hash engine, recording
which entry point was invoked and at which hash-type tag. -/
inductive EngineCall where
  | hashInit (hashType : HashType)
  | hashUpdate (hashType : HashType) (data : List Nat) (len : Nat)
  | hashFinal (hashType : HashType)
  | hashFree (hashType : HashType)
deriving DecidableEq, Repr

/-- Result of a generic-path initializer: the 1/0 return value, the session
after the call, and the engine calls performed. -/
structure InitResult where
  ret : Int
  session : we_Digest
  calls : List EngineCall
deriving DecidableEq, Repr

/-- Result of `we_digest_update`. -/
structure UpdateResult where
  ret : Int
  session : we_Digest
  calls : List EngineCall
deriving DecidableEq, Repr

/-- Result of `we_digest_final`: additionally the bytes left in the
caller's output buffer `md`. -/
structure FinalResult where
  ret : Int
  session : we_Digest
  md : List Nat
  calls : List EngineCall
deriving DecidableEq, Repr

/-- Result of `we_digest_cleanup`: the session pointer (`EVP_MD_CTX_md_data`)
is unchanged by the routine, so it is passed through. -/
structure CleanupResult where
  ret : Int
  session : Option we_Digest
  calls : List EngineCall
deriving DecidableEq, Repr

/-- `we_sha256_init` (generic path, digest.c lines 190-211): stores
`WC_HASH_TYPE_SHA256` into `digest->hashType`, then calls
`wc_HashInit(&digest->hash, digest->hashType)`; nonzero status is mapped
to return 0, zero status to return 1. -/
def we_sha256_init (E : Engine) (ctx : we_Digest) : InitResult :=
  let digest := { ctx with hashType := HashType.sha256 }
  let (ret, h) := wc_HashInit E digest.hashType
  { ret := if ret ≠ 0 then 0 else 1
    session := { digest with hash := h }
    calls := [EngineCall.hashInit digest.hashType] }

/-- `we_sha384_init` (digest.c lines 221-243). -/
def we_sha384_init (E : Engine) (ctx : we_Digest) : InitResult :=
  let digest := { ctx with hashType := HashType.sha384 }
  let (ret, h) := wc_HashInit E digest.hashType
  { ret := if ret ≠ 0 then 0 else 1
    session := { digest with hash := h }
    calls := [EngineCall.hashInit digest.hashType] }

/-- `we_sha512_init` (digest.c lines 252-273). -/
def we_sha512_init (E : Engine) (ctx : we_Digest) : InitResult :=
  let digest := { ctx with hashType := HashType.sha512 }
  let (ret, h) := wc_HashInit E digest.hashType
  { ret := if ret ≠ 0 then 0 else 1
    session := { digest with hash := h }
    calls := [EngineCall.hashInit digest.hashType] }

/-- `we_sha3_224_init` (digest.c lines 283-304). -/
def we_sha3_224_init (E : Engine) (ctx : we_Digest) : InitResult :=
  let digest := { ctx with hashType := HashType.sha3_224 }
  let (ret, h) := wc_HashInit E digest.hashType
  { ret := if ret ≠ 0 then 0 else 1
    session := { digest with hash := h }
    calls := [EngineCall.hashInit digest.hashType] }

/-- `we_sha3_256_init` (digest.c lines 314-335). -/
def we_sha3_256_init (E : Engine) (ctx : we_Digest) : InitResult :=
  let digest := { ctx with hashType := HashType.sha3_256 }
  let (ret, h) := wc_HashInit E digest.hashType
  { ret := if ret ≠ 0 then 0 else 1
    session := { digest with hash := h }
    calls := [EngineCall.hashInit digest.hashType] }

/-- `we_sha3_384_init` (digest.c lines 345-366). -/
def we_sha3_384_init (E : Engine) (ctx : we_Digest) : InitResult :=
  let digest := { ctx with hashType := HashType.sha3_384 }
  let (ret, h) := wc_HashInit E digest.hashType
  { ret := if ret ≠ 0 then 0 else 1
    session := { digest with hash := h }
    calls := [EngineCall.hashInit digest.hashType] }

/-- `we_sha3_512_init` (digest.c lines 376-398). -/
def we_sha3_512_init (E : Engine) (ctx : we_Digest) : InitResult :=
  let digest := { ctx with hashType := HashType.sha3_512 }
  let (ret, h) := wc_HashInit E digest.hashType
  { ret := if ret ≠ 0 then 0 else 1
    session := { digest with hash := h }
    calls := [EngineCall.hashInit digest.hashType] }

/-- Selects the generic-path initializer registered for a given hash type
(each is a distinct function in digest.c; this map only indexes them for
quantified statements). -/
def we_generic_init : HashType → Engine → we_Digest → InitResult
  | .sha256 => we_sha256_init
  | .sha384 => we_sha384_init
  | .sha512 => we_sha512_init
  | .sha3_224 => we_sha3_224_init
  | .sha3_256 => we_sha3_256_init
  | .sha3_384 => we_sha3_384_init
  | .sha3_512 => we_sha3_512_init

/-- `we_digest_update` (digest.c lines 408-429): calls
`wc_HashUpdate(&digest->hash, digest->hashType, data, (word32)len)` —
the caller's `size_t` length is truncated to 32 bits by the cast — and
maps the status to 1/0. -/
def we_digest_update (E : Engine) (ctx : we_Digest) (data : List Nat) :
    UpdateResult :=
  let digest := ctx
  let (ret, h) :=
    wc_HashUpdate E digest.hash digest.hashType data (castWord32 data.length)
  { ret := if ret ≠ 0 then 0 else 1
    session := { digest with hash := h }
    calls := [EngineCall.hashUpdate digest.hashType data (castWord32 data.length)] }

/-- `we_digest_final` (digest.c lines 438-460): calls
`wc_HashFinal(&digest->hash, digest->hashType, md)` and maps the status
to 1/0. -/
def we_digest_final (E : Engine) (ctx : we_Digest) : FinalResult :=
  let digest := ctx
  let (ret, md) := wc_HashFinal E digest.hash digest.hashType
  { ret := if ret ≠ 0 then 0 else 1
    session := digest
    md := md
    calls := [EngineCall.hashFinal digest.hashType] }

/-- `we_digest_cleanup` (digest.c lines 468-496, the
`!defined(HAVE_FIPS_VERSION) || HAVE_FIPS_VERSION >= 2` branch): starts
with `ret = 1`; when `EVP_MD_CTX_md_data(ctx)` is non-NULL it calls
`wc_HashFree(&digest->hash, digest->hashType)` and maps the status to
1/0; a NULL session skips the free and keeps `ret = 1`. -/
def we_digest_cleanup (E : Engine) (ctx : Option we_Digest) : CleanupResult :=
  match ctx with
  | none => { ret := 1, session := none, calls := [] }
  | some digest =>
    let ret := wc_HashFree E digest.hash digest.hashType
    { ret := if ret ≠ 0 then 0 else 1
      session := some digest
      calls := [EngineCall.hashFree digest.hashType] }

/-- `we_sha256_init` of the `WE_SHA256_DIRECT` build (digest.c lines
36-53): calls `wc_InitSha256` directly. -/
def we_sha256_init_direct (E : Engine) : Int × wc_Sha256 :=
  let (ret, s) := wc_InitSha256 E
  (if ret ≠ 0 then 0 else 1, s)

/-- `we_sha256_update` of the `WE_SHA256_DIRECT` build (digest.c lines
63-81): calls `wc_Sha256Update(..., (word32)len)` directly, with the same
32-bit truncating cast as the generic path. -/
def we_sha256_update_direct (E : Engine) (s : wc_Sha256) (data : List Nat) :
    Int × wc_Sha256 :=
  let (ret, s) := wc_Sha256Update E s data (castWord32 data.length)
  (if ret ≠ 0 then 0 else 1, s)

/-- `we_sha256_final` of the `WE_SHA256_DIRECT` build (digest.c lines
90-109): calls `wc_Sha256Final` directly. -/
def we_sha256_final_direct (E : Engine) (s : wc_Sha256) : Int × List Nat :=
  let (ret, md) := wc_Sha256Final E s
  (if ret ≠ 0 then 0 else 1, md)

/-- `we_sha256_cleanup` of the `WE_SHA256_DIRECT` build (digest.c lines
117-125): calls `wc_Sha256Free` (void in wolfSSL) and returns 1. -/
def we_sha256_cleanup_direct (E : Engine) (s : wc_Sha256) : Int :=
  let _ := wc_Sha256Free E s
  1

/-- The two SHA-256 paths run end to end on one input: returns the 1/0
results of init, update and finalize, and the digest bytes left in the
output buffer.  Direct path (`WE_SHA256_DIRECT` build). -/
def directSha256Run (E : Engine) (data : List Nat) : Int × Int × Int × List Nat :=
  let (r1, s) := we_sha256_init_direct E
  let (r2, s) := we_sha256_update_direct E s data
  let (r3, md) := we_sha256_final_direct E s
  (r1, r2, r3, md)

/-- Generic-dispatch path run end to end on one input, starting from an
arbitrary pre-existing context `ctx` (init rebinds it). -/
def genericSha256Run (E : Engine) (ctx : we_Digest) (data : List Nat) :
    Int × Int × Int × List Nat :=
  let r1 := we_sha256_init E ctx
  let r2 := we_digest_update E r1.session data
  let r3 := we_digest_final E r2.session
  (r1.ret, r2.ret, r3.ret, r3.md)

/-- Behaviour of the OpenSSL `EVP_MD_meth_*` registration primitives:
whether `EVP_MD_meth_new` yields a record, and the 1/0 status of each
`EVP_MD_meth_set_*` call.  Quantifying over `MethEnv` quantifies over
every way the descriptor-construction steps can succeed or fail. -/
structure MethEnv where
  newOk : Bool
  setInitOk : Bool
  setResultSizeOk : Bool
  setUpdateOk : Bool
  setFinalOk : Bool
  setCleanupOk : Bool
  setAppDatasizeOk : Bool
deriving DecidableEq, Repr

/-- An OpenSSL `EVP_MD` method descriptor under construction: which entry
points have been bound and the registered result size.  The bound init
entry point is recorded by the hash type it targets (the update/final/
cleanup entry points are the shared generic adapter functions). -/
structure EVP_MD where
  initFn : Option HashType := none
  updateSet : Bool := false
  finalSet : Bool := false
  cleanupSet : Bool := false
  resultSize : Option Nat := none
  appDatasizeSet : Bool := false
deriving DecidableEq, Repr

/-- `EVP_MD_meth_new`: a blank descriptor record (allocation success is
decided by `MethEnv.newOk` at the call site). -/
def EVP_MD_meth_new : EVP_MD := {}

/-- `EVP_MD_meth_set_init`: binds the per-algorithm initializer on
success (status 1), leaves the record unchanged on failure (status 0). -/
def EVP_MD_meth_set_init (env : MethEnv) (md : EVP_MD) (hashType : HashType) :
    Int × EVP_MD :=
  if env.setInitOk then (1, { md with initFn := some hashType }) else (0, md)

/-- `EVP_MD_meth_set_result_size`. -/
def EVP_MD_meth_set_result_size (env : MethEnv) (md : EVP_MD) (size : Nat) :
    Int × EVP_MD :=
  if env.setResultSizeOk then (1, { md with resultSize := some size }) else (0, md)

/-- `EVP_MD_meth_set_update` (binds `we_digest_update`). -/
def EVP_MD_meth_set_update (env : MethEnv) (md : EVP_MD) : Int × EVP_MD :=
  if env.setUpdateOk then (1, { md with updateSet := true }) else (0, md)

/-- `EVP_MD_meth_set_final` (binds `we_digest_final`). -/
def EVP_MD_meth_set_final (env : MethEnv) (md : EVP_MD) : Int × EVP_MD :=
  if env.setFinalOk then (1, { md with finalSet := true }) else (0, md)

/-- `EVP_MD_meth_set_cleanup` (binds `we_digest_cleanup`). -/
def EVP_MD_meth_set_cleanup (env : MethEnv) (md : EVP_MD) : Int × EVP_MD :=
  if env.setCleanupOk then (1, { md with cleanupSet := true }) else (0, md)

/-- `EVP_MD_meth_set_app_datasize` (registers `sizeof(we_Digest)`). -/
def EVP_MD_meth_set_app_datasize (env : MethEnv) (md : EVP_MD) : Int × EVP_MD :=
  if env.setAppDatasizeOk then (1, { md with appDatasizeSet := true }) else (0, md)

/-- `we_init_digest_meth` (digest.c lines 504-537, modern-OpenSSL branch):
binds update, final, cleanup and app-datasize onto an existing method,
each step guarded by the previous step having returned 1. -/
def we_init_digest_meth (env : MethEnv) (method : EVP_MD) : Int × EVP_MD :=
  let (ret, m) := EVP_MD_meth_set_update env method
  let (ret, m) := if ret = 1 then EVP_MD_meth_set_final env m else (ret, m)
  let (ret, m) := if ret = 1 then EVP_MD_meth_set_cleanup env m else (ret, m)
  let (ret, m) := if ret = 1 then EVP_MD_meth_set_app_datasize env m else (ret, m)
  (ret, m)

/-- Outcome of a `we_init_*_meth` registration routine: its int return
value, the final value of the global `we_*_md` pointer (None when
`EVP_MD_meth_new` returned NULL), and whether `EVP_MD_meth_free` was called
on the record.  The source frees on failure without nulling the global, so
a freed record may still be referenced by `md`. -/
structure MethResult where
  ret : Int
  md : Option EVP_MD
  freed : Bool
deriving DecidableEq, Repr

/-- The shared body of the seven `we_init_*_meth` routines, which differ
only in the hash-type tag bound by `EVP_MD_meth_set_init` and the
`WC_*_DIGEST_SIZE` constant passed to `EVP_MD_meth_set_result_size`:
allocate via `EVP_MD_meth_new`, bind init and the result size, call
`we_init_digest_meth`, and on failure free the record if it was
allocated. -/
def we_init_md_meth_body (hashType : HashType) (size : Nat) (env : MethEnv) :
    MethResult :=
  if env.newOk then
    let md := EVP_MD_meth_new
    let (ret, md) := EVP_MD_meth_set_init env md hashType
    let (ret, md) :=
      if ret = 1 then EVP_MD_meth_set_result_size env md size else (ret, md)
    let (ret, md) := if ret = 1 then we_init_digest_meth env md else (ret, md)
    { ret := ret, md := some md, freed := ret != 1 }
  else
    { ret := 0, md := none, freed := false }

/-- `we_init_sha256_meth` (generic build, digest.c lines 548-572). -/
def we_init_sha256_meth (env : MethEnv) : MethResult :=
  we_init_md_meth_body HashType.sha256 WC_SHA256_DIGEST_SIZE env

/-- `we_init_sha384_meth` (digest.c lines 584-608). -/
def we_init_sha384_meth (env : MethEnv) : MethResult :=
  we_init_md_meth_body HashType.sha384 WC_SHA384_DIGEST_SIZE env

/-- `we_init_sha512_meth` (digest.c lines 620-644). -/
def we_init_sha512_meth (env : MethEnv) : MethResult :=
  we_init_md_meth_body HashType.sha512 WC_SHA512_DIGEST_SIZE env

/-- `we_init_sha3_224_meth` (digest.c lines 656-682). -/
def we_init_sha3_224_meth (env : MethEnv) : MethResult :=
  we_init_md_meth_body HashType.sha3_224 WC_SHA3_224_DIGEST_SIZE env

/-- `we_init_sha3_256_meth` (digest.c lines 694-720). -/
def we_init_sha3_256_meth (env : MethEnv) : MethResult :=
  we_init_md_meth_body HashType.sha3_256 WC_SHA3_256_DIGEST_SIZE env

/-- `we_init_sha3_384_meth` (digest.c lines 732-758). -/
def we_init_sha3_384_meth (env : MethEnv) : MethResult :=
  we_init_md_meth_body HashType.sha3_384 WC_SHA3_384_DIGEST_SIZE env

/-- `we_init_sha3_512_meth` (digest.c lines 770-796). -/
def we_init_sha3_512_meth (env : MethEnv) : MethResult :=
  we_init_md_meth_body HashType.sha3_512 WC_SHA3_512_DIGEST_SIZE env

/-- Indexes the seven registration routines by hash type for quantified
statements. -/
def we_init_meth : HashType → MethEnv → MethResult
  | .sha256 => we_init_sha256_meth
  | .sha384 => we_init_sha384_meth
  | .sha512 => we_init_sha512_meth
  | .sha3_224 => we_init_sha3_224_meth
  | .sha3_256 => we_init_sha3_256_meth
  | .sha3_384 => we_init_sha3_384_meth
  | .sha3_512 => we_init_sha3_512_meth

/-- The `MethEnv` in which every construction step succeeds. -/
def methEnvOk : MethEnv :=
  { newOk := true, setInitOk := true, setResultSizeOk := true,
    setUpdateOk := true, setFinalOk := true, setCleanupOk := true,
    setAppDatasizeOk := true }

/-- A concrete engine in which every primitive succeeds and each digest is
the all-zero string of the algorithm's documented size. -/
def engineOk : Engine :=
  { digestFn := fun hashType _ => List.replicate (wc_HashGetDigestSize hashType) 0
    initStatus := fun _ => 0
    updateStatus := fun _ _ => 0
    finalStatus := fun _ => 0
    freeStatus := fun _ => 0 }

/-- A concrete engine identical to `engineOk` except that `wc_HashFree`
reports the wolfSSL error status -173 (BAD_FUNC_ARG). -/
def engineFreeFail : Engine :=
  { digestFn := fun hashType _ => List.replicate (wc_HashGetDigestSize hashType) 0
    initStatus := fun _ => 0
    updateStatus := fun _ _ => 0
    finalStatus := fun _ => 0
    freeStatus := fun _ => -173 }

/-- A concrete Ready session bound to SHA-256 with an empty accumulation. -/
def sessionA : we_Digest :=
  { hash := ⟨[]⟩, hashType := HashType.sha256 }

/-- A concrete `MethEnv` in which everything succeeds except the
`EVP_MD_meth_set_final` binding step. -/
def methEnvFinalFail : MethEnv :=
  { methEnvOk with setFinalOk := false }

/-- A concrete engine in which every primitive succeeds and the digest of
an accumulated message is the one-element list holding its length; it
separates any two accumulated messages of different length. -/
def engineLen : Engine :=
  { digestFn := fun _ m => [m.length]
    initStatus := fun _ => 0
    updateStatus := fun _ _ => 0
    finalStatus := fun _ => 0
    freeStatus := fun _ => 0 }

/-- A concrete input of length `2 ^ 32`: on a 64-bit build its `size_t`
length is nonzero but the C cast `(word32)len` truncates it to 0. -/
def bigData : List Nat := List.replicate (2 ^ 32) 0

/-- The adapter's status-to-return mapping `if (ret != 0) ret = 0; else
ret = 1;` expressed positively. -/
theorem if_status (s : Int) :
    (if s ≠ 0 then (0 : Int) else 1) = if s = 0 then 1 else 0 := by
  by_cases h : s = 0 <;> simp [h]

/-- Each `we_init_*_meth` routine is the common registration body at its
hash type's digest-size constant. -/
theorem we_init_meth_eq_body (ht : HashType) (env : MethEnv) :
    we_init_meth ht env = we_init_md_meth_body ht (wc_HashGetDigestSize ht) env := by
  cases ht <;> rfl

/-- C1: for every session and every supported algorithm, `we_digest_update`,
`we_digest_final` and `we_digest_cleanup` each perform exactly one engine
call — `wc_HashUpdate`, `wc_HashFinal`, `wc_HashFree` respectively —
parameterized by the session's stored `hashType` tag, and no other
engine call or algorithm-dependent branch. -/
theorem we_digest_dispatch_by_hashType (E : Engine) (d : we_Digest)
    (data : List Nat) :
    (we_digest_update E d data).calls =
      [EngineCall.hashUpdate d.hashType data (castWord32 data.length)] ∧
    (we_digest_final E d).calls = [EngineCall.hashFinal d.hashType] ∧
    (we_digest_cleanup E (some d)).calls = [EngineCall.hashFree d.hashType] :=
  ⟨rfl, rfl, rfl⟩

/-- Every list no longer than `word32` allows is fed whole: the C cast
`(word32)len` is the identity below `2 ^ 32`. -/
theorem take_castWord32_length (l : List Nat) (h : l.length < 2 ^ 32) :
    l.take (castWord32 l.length) = l := by
  unfold castWord32
  rw [Nat.mod_eq_of_lt h, List.take_length]

/-- Counterexample to C2 as stated: at the input of length `2 ^ 32` split
at `n = 1`, the split run and the single-update run leave different
digest bytes, because `we_digest_update` truncates the update length with
`(word32)len` — the single update feeds `2 ^ 32 % 2 ^ 32 = 0` bytes while
the split updates feed `1` and `2 ^ 32 - 1` bytes. -/
theorem we_digest_chunking_invariance_cex :
    ¬ ((we_digest_final engineLen (we_digest_update engineLen
        (we_digest_update engineLen sessionA (bigData.take 1)).session
        (bigData.drop 1)).session).md =
      (we_digest_final engineLen
        (we_digest_update engineLen sessionA bigData).session).md) := by
  have hlen_take : (bigData.take 1).length = 1 := by
    simp only [bigData]
    rw [List.length_take, List.length_replicate]
    omega
  have hlen_drop : (bigData.drop 1).length = 2 ^ 32 - 1 := by
    simp only [bigData]
    rw [List.length_drop, List.length_replicate]
  have hbig : castWord32 bigData.length = 0 := by
    simp only [bigData]
    rw [List.length_replicate]
    unfold castWord32
    exact Nat.mod_self _
  have hc1 : castWord32 (bigData.take 1).length = 1 := by
    rw [hlen_take]
    unfold castWord32
    omega
  have hc2 : castWord32 (bigData.drop 1).length = 2 ^ 32 - 1 := by
    rw [hlen_drop]
    unfold castWord32
    omega
  intro hEq
  simp only [we_digest_update, we_digest_final, wc_HashUpdate, wc_HashFinal,
    engineLen, sessionA, hbig, hc1, hc2, List.take_zero, List.nil_append,
    List.append_nil, List.length_nil] at hEq
  simp only [List.cons.injEq, and_true] at hEq
  have hlenBig : bigData.length = 2 ^ 32 := by
    simp only [bigData]
    rw [List.length_replicate]
  simp only [List.length_append, List.length_take, List.length_drop,
    hlenBig] at hEq
  omega

/-- C2 (amended): for every data shorter than `2 ^ 32` bytes (so that the
`(word32)len` cast feeds every byte) and every split point `n ≤ m`,
updating with `data.take n` then `data.drop n` and finalizing leaves the
same digest bytes in the output buffer as a single update with `data`
followed by finalize, for every engine, session and supported
algorithm. -/
theorem we_digest_chunking_invariance (E : Engine) (d : we_Digest)
    (data : List Nat) (n : Nat) (h : n ≤ data.length)
    (hlen : data.length < 2 ^ 32) :
    (we_digest_final E (we_digest_update E
        (we_digest_update E d (data.take n)).session (data.drop n)).session).md =
      (we_digest_final E (we_digest_update E d data).session).md := by
  have htake : (data.take n).length < 2 ^ 32 := by
    rw [List.length_take]; omega
  have hdrop : (data.drop n).length < 2 ^ 32 := by
    rw [List.length_drop]; omega
  have e1 := take_castWord32_length (data.take n) htake
  have e2 := take_castWord32_length (data.drop n) hdrop
  have e3 := take_castWord32_length data hlen
  simp only [we_digest_update, we_digest_final, wc_HashUpdate, wc_HashFinal,
    e1, e2, e3]
  rw [List.append_assoc, List.take_append_drop]

/-- Witness for C2 at `data = [7, 9]`, `n = 1`. -/
theorem we_digest_chunking_invariance_witness :
    1 ≤ ([7, 9] : List Nat).length ∧
    ([7, 9] : List Nat).length < 2 ^ 32 ∧
    (we_digest_final engineOk (we_digest_update engineOk
        (we_digest_update engineOk sessionA (([7, 9] : List Nat).take 1)).session
        (([7, 9] : List Nat).drop 1)).session).md =
      (we_digest_final engineOk
        (we_digest_update engineOk sessionA [7, 9]).session).md :=
  ⟨by decide, by decide,
    we_digest_chunking_invariance engineOk sessionA [7, 9] 1 (by decide)
      (by decide)⟩

/-- C3: the fixed-function SHA-256 path (`WE_SHA256_DIRECT` build:
`wc_InitSha256`/`wc_Sha256Update`/`wc_Sha256Final`) and the
generic-dispatch SHA-256 path (`we_sha256_init` binding
`WC_HASH_TYPE_SHA256`, then `we_digest_update`/`we_digest_final` via
`wc_HashUpdate`/`wc_HashFinal`) return identical statuses and identical
digest bytes on every input, for every engine behaviour and every
pre-existing generic context. -/
theorem sha256_direct_and_generic_paths_agree (E : Engine) (ctx : we_Digest)
    (data : List Nat) :
    directSha256Run E data = genericSha256Run E ctx data := rfl

/-- Counterexample to C4 as stated: with an engine whose `wc_HashFree`
returns the nonzero status -173, the generic `we_digest_cleanup` on a
live session returns 0, not 1 — the release error is surfaced. -/
theorem we_digest_cleanup_not_always_success :
    (we_digest_cleanup engineFreeFail (some sessionA)).ret = 0 := by decide

/-- C4 (amended): the direct SHA-256 cleanup always returns 1 (wolfSSL's
`wc_Sha256Free` returns no status), and the generic `we_digest_cleanup`
returns 1 when the session data is NULL or when `wc_HashFree` returns 0,
but returns 0 when `wc_HashFree` returns a nonzero status — the generic
path surfaces a release error instead of absorbing it. -/
theorem cleanup_release_status_policy (E : Engine) (s : wc_Sha256)
    (d : we_Digest) :
    we_sha256_cleanup_direct E s = 1 ∧
    (we_digest_cleanup E none).ret = 1 ∧
    (we_digest_cleanup E (some d)).ret =
      (if E.freeStatus d.hashType = 0 then 1 else 0) := by
  refine ⟨rfl, rfl, ?_⟩
  simp only [we_digest_cleanup, wc_HashFree]
  exact if_status (E.freeStatus d.hashType)

/-- C5: every generic-path init, update and finalize returns 1 exactly when
its single underlying engine call returns status 0 and returns 0 exactly
when that status is nonzero, and each operation makes exactly one engine
call (no retry). -/
theorem adapter_status_propagation (E : Engine) (ht : HashType)
    (d : we_Digest) (data : List Nat) :
    (we_generic_init ht E d).ret = (if E.initStatus ht = 0 then 1 else 0) ∧
    (we_digest_update E d data).ret =
      (if E.updateStatus d.hashType (data.take (castWord32 data.length)) = 0
        then 1 else 0) ∧
    (we_digest_final E d).ret = (if E.finalStatus d.hashType = 0 then 1 else 0) ∧
    (we_generic_init ht E d).calls.length = 1 ∧
    (we_digest_update E d data).calls.length = 1 ∧
    (we_digest_final E d).calls.length = 1 := by
  refine ⟨?_, ?_, ?_, ?_, ?_, ?_⟩
  · cases ht <;>
      simp [we_generic_init, we_sha256_init, we_sha384_init, we_sha512_init,
        we_sha3_224_init, we_sha3_256_init, we_sha3_384_init, we_sha3_512_init,
        wc_HashInit, if_status]
  · simp [we_digest_update, wc_HashUpdate, if_status]
  · simp [we_digest_final, wc_HashFinal, if_status]
  · cases ht <;> rfl
  · rfl
  · rfl

/-- C6: for every supported hash type, the result size registered by the
`we_init_*_meth` routine (the `WC_*_DIGEST_SIZE` constant passed to
`EVP_MD_meth_set_result_size`) equals the number of bytes a successful
`we_digest_final` leaves in the output buffer for a session of that type,
given that the engine's digest has its documented `wc_HashGetDigestSize`
length. -/
theorem registered_result_size_matches_final (ht : HashType) (E : Engine)
    (acc : List Nat)
    (hlen : (E.digestFn ht acc).length = wc_HashGetDigestSize ht)
    (hst : E.finalStatus ht = 0) :
    Option.bind (we_init_meth ht methEnvOk).md EVP_MD.resultSize =
      some (we_digest_final E ⟨⟨acc⟩, ht⟩).md.length ∧
    (we_digest_final E ⟨⟨acc⟩, ht⟩).ret = 1 := by
  constructor
  · cases ht <;>
      simp [we_init_meth, we_init_sha256_meth, we_init_sha384_meth,
        we_init_sha512_meth, we_init_sha3_224_meth, we_init_sha3_256_meth,
        we_init_sha3_384_meth, we_init_sha3_512_meth, we_init_md_meth_body,
        methEnvOk, EVP_MD_meth_new, EVP_MD_meth_set_init,
        EVP_MD_meth_set_result_size, we_init_digest_meth,
        EVP_MD_meth_set_update, EVP_MD_meth_set_final, EVP_MD_meth_set_cleanup,
        EVP_MD_meth_set_app_datasize, we_digest_final, wc_HashFinal, hlen,
        wc_HashGetDigestSize, WC_SHA256_DIGEST_SIZE, WC_SHA384_DIGEST_SIZE,
        WC_SHA512_DIGEST_SIZE, WC_SHA3_224_DIGEST_SIZE, WC_SHA3_256_DIGEST_SIZE,
        WC_SHA3_384_DIGEST_SIZE, WC_SHA3_512_DIGEST_SIZE]
  · simp [we_digest_final, wc_HashFinal, hst]

/-- Witness for C6 at SHA-256 with the all-success engine. -/
theorem registered_result_size_matches_final_witness :
    (engineOk.digestFn HashType.sha256 []).length =
      wc_HashGetDigestSize HashType.sha256 ∧
    engineOk.finalStatus HashType.sha256 = 0 ∧
    (Option.bind (we_init_meth HashType.sha256 methEnvOk).md EVP_MD.resultSize =
      some (we_digest_final engineOk ⟨⟨[]⟩, HashType.sha256⟩).md.length ∧
    (we_digest_final engineOk ⟨⟨[]⟩, HashType.sha256⟩).ret = 1) :=
  ⟨by decide, by decide,
    registered_result_size_matches_final HashType.sha256 engineOk []
      (by decide) (by decide)⟩

/-- C7: for every algorithm, when any descriptor-construction step fails
(allocation or any binding step), the registration routine returns 0
(failure); if the record was allocated it is released via
`EVP_MD_meth_free`, and if allocation itself failed the global descriptor
pointer stays NULL — no live, half-initialized descriptor is published. -/
theorem registration_failure_not_published (ht : HashType) (env : MethEnv)
    (hfail : ¬ (env.newOk = true ∧ env.setInitOk = true ∧
      env.setResultSizeOk = true ∧ env.setUpdateOk = true ∧
      env.setFinalOk = true ∧ env.setCleanupOk = true ∧
      env.setAppDatasizeOk = true)) :
    (we_init_meth ht env).ret = 0 ∧
    (env.newOk = true → (we_init_meth ht env).freed = true) ∧
    (env.newOk = false → (we_init_meth ht env).md = none) := by
  rw [we_init_meth_eq_body]
  obtain ⟨n, i, r, u, f, c, a⟩ := env
  cases n <;> cases i <;> cases r <;> cases u <;> cases f <;> cases c <;>
    cases a <;>
    simp_all [we_init_md_meth_body, EVP_MD_meth_new, EVP_MD_meth_set_init,
      EVP_MD_meth_set_result_size, we_init_digest_meth, EVP_MD_meth_set_update,
      EVP_MD_meth_set_final, EVP_MD_meth_set_cleanup,
      EVP_MD_meth_set_app_datasize]

/-- Witness for C7: registration of SHA-256 with the final-binding step
failing. -/
theorem registration_failure_not_published_witness :
    (¬ (methEnvFinalFail.newOk = true ∧ methEnvFinalFail.setInitOk = true ∧
      methEnvFinalFail.setResultSizeOk = true ∧
      methEnvFinalFail.setUpdateOk = true ∧ methEnvFinalFail.setFinalOk = true ∧
      methEnvFinalFail.setCleanupOk = true ∧
      methEnvFinalFail.setAppDatasizeOk = true)) ∧
    ((we_init_meth HashType.sha256 methEnvFinalFail).ret = 0 ∧
    (methEnvFinalFail.newOk = true →
      (we_init_meth HashType.sha256 methEnvFinalFail).freed = true) ∧
    (methEnvFinalFail.newOk = false →
      (we_init_meth HashType.sha256 methEnvFinalFail).md = none)) :=
  ⟨by decide,
    registration_failure_not_published HashType.sha256 methEnvFinalFail
      (by decide)⟩

/-- C8: the `hashType` tag of a session is unchanged by `we_digest_update`
and `we_digest_final`, and `we_digest_cleanup` leaves the whole session
record untouched — only the initializers write the tag. -/
theorem hashType_write_once (E : Engine) (d : we_Digest) (data : List Nat) :
    (we_digest_update E d data).session.hashType = d.hashType ∧
    (we_digest_final E d).session.hashType = d.hashType ∧
    (we_digest_cleanup E (some d)).session = some d :=
  ⟨rfl, rfl, rfl⟩

/-- C9: `we_digest_cleanup` on a context whose `EVP_MD_CTX_md_data` is
NULL returns 1 and makes no engine call (no `wc_HashFree`). -/
theorem cleanup_null_session_noop (E : Engine) :
    (we_digest_cleanup E none).ret = 1 ∧ (we_digest_cleanup E none).calls = [] :=
  ⟨rfl, rfl⟩

/-- C10: every generic-path initializer stores the requested algorithm tag
into `session.hashType` and then calls `wc_HashInit` at that very tag; the
stored tag equals the requested one for every engine status, in
particular also when init fails (the return value is 0 exactly when the
engine status is nonzero, yet the tag is set regardless). -/
theorem generic_init_sets_hashType_before_engine_init (E : Engine)
    (ht : HashType) (d : we_Digest) :
    (we_generic_init ht E d).session.hashType = ht ∧
    (we_generic_init ht E d).calls = [EngineCall.hashInit ht] ∧
    (we_generic_init ht E d).ret = (if E.initStatus ht = 0 then 1 else 0) := by
  refine ⟨?_, ?_, ?_⟩ <;> cases ht <;>
    simp [we_generic_init, we_sha256_init, we_sha384_init, we_sha512_init,
      we_sha3_224_init, we_sha3_256_init, we_sha3_384_init, we_sha3_512_init,
      wc_HashInit, if_status]

end WolfEngineDigest
